import Mathlib

/-!
Shallow embedding of the acoustic-modeling and synthesis core
(`src/core/geometry.py`, `src/core/physics.py`, `src/core/synthesizer.py`).

Python floats are modelled as real numbers; numpy arrays as lists of reals;
complex spectra as lists of complex numbers.  Functions of external libraries
(scipy savgol_filter, the random generator) are passed in as parameters.
Fallible code is modelled with `Except`.
-/

noncomputable section

/-- A 2D point, as in the `Point` dataclass of `geometry.py`. -/
structure Point where
  x : ℝ
  y : ℝ

instance : Inhabited Point := ⟨⟨0, 0⟩⟩

/-- Cyclic shoelace sum of a polygon relative to an axis-of-symmetry x
coordinate: consecutive points are paired up, the last wrapping to the
first. -/
def shoelaceSum (pts : List Point) (axisX : ℝ) : ℝ :=
  ((pts.zip (pts.rotate 1)).map
    (fun pq => (pq.1.x - axisX) * pq.2.y - (pq.2.x - axisX) * pq.1.y)).sum

/-- Modelled from the spec: `GeometryExtractor.calculate_area` is called from
`AcousticModel._calculate_physical_shifts` but its definition is absent from
the sources.  Per spec section 4.1 it is the absolute value of the signed
shoelace polygon area relative to a given axis-of-symmetry coordinate, and
fails softly (returns 0) if fewer than 3 points are given. -/
def calculate_area (pts : List Point) (axisX : ℝ) : ℝ :=
  if pts.length < 3 then 0 else |shoelaceSum pts axisX / 2|

/-- Largest y coordinate of a list of points (the empty case is never
reached by callers, which guard on emptiness first). -/
def listMaxY : List Point → ℝ
  | [] => 0
  | p :: rest => rest.foldl (fun m q => max m q.y) p.y

/-- Smallest y coordinate of a list of points. -/
def listMinY : List Point → ℝ
  | [] => 0
  | p :: rest => rest.foldl (fun m q => min m q.y) p.y

/-- Modelled from the spec: `GeometryExtractor.get_max_depth` is called from
`AcousticModel._calculate_physical_shifts` but its definition is absent from
the sources.  Per spec section 4.1 it is max-minus-min of the elevation axis
of an arch profile and fails softly (returns a fixed fallback, the reference
depth 20.0) if the profile is empty. -/
def get_max_depth (pts : List Point) : ℝ :=
  match pts with
  | [] => 20
  | p :: rest => listMaxY (p :: rest) - listMinY (p :: rest)

/-- Material parameters of `AcousticModel` (top/back density and modulus). -/
structure MaterialParams where
  top_density : ℝ
  top_modulus : ℝ
  back_density : ℝ
  back_modulus : ℝ

/-- A resonant mode: frequency (Hz), amplitude, damping ratio. -/
structure Mode where
  freq : ℝ
  amp : ℝ
  damping : ℝ

/-- Calibration constant `REF_AREA` of `AcousticModel`. -/
def REF_AREA : ℝ := 35000

/-- Calibration constant `REF_DEPTH` of `AcousticModel`. -/
def REF_DEPTH : ℝ := 20

/-- Calibration constant `REF_VOL` of `AcousticModel`. -/
def REF_VOL : ℝ := REF_AREA * (30 + 0.66 * REF_DEPTH)

/-- `np.clip(x, lo, hi)`. -/
def clip (x lo hi : ℝ) : ℝ := min (max x lo) hi

/-- `np.linspace a b n` (n evenly spaced samples, endpoints included). -/
def linspace (a b : ℝ) (n : ℕ) : List ℝ :=
  (List.range n).map fun i : ℕ => a + (b - a) * (i : ℝ) / ((n : ℝ) - 1)

/-- Pixel-to-physical scale factor `s_fact = 500 / h_pix` with
`h_pix = max(10, max y - min y)`, from `_calculate_physical_shifts`. -/
def sFact (geom : List Point) : ℝ :=
  500 / max 10 (listMaxY geom - listMinY geom)

/-- Scaled polygon area, from `_calculate_physical_shifts`:
`calculate_area(geometry, geometry[0].x) * s_fact**2`. -/
def geomArea (geom : List Point) : ℝ :=
  calculate_area geom geom.headI.x * (sFact geom) ^ 2

/-- Scaled body depth, from `_calculate_physical_shifts`: mean of the two
arch depths times `s_fact` if arching data is set, else `REF_DEPTH`. -/
def geomDepth (arching : Option (List Point × List Point)) (geom : List Point) : ℝ :=
  match arching with
  | some tb => ((get_max_depth tb.1 + get_max_depth tb.2) / 2) * sFact geom
  | none => REF_DEPTH

/-- Volume shift `h_shift`: inverse square root of estimated body volume
relative to the reference volume, clamped to `[0.6, 1.4]`. -/
def h_shift (arching : Option (List Point × List Point)) (geom : List Point) : ℝ :=
  clip (Real.sqrt (REF_VOL /
    max 100000 (geomArea geom * (30 + 0.66 * geomDepth arching geom)))) 0.6 1.4

/-- Bending shift `b_shift`: depth ratio times inverse square root of area
ratio, clamped to `[0.5, 2.0]`. -/
def b_shift (arching : Option (List Point × List Point)) (geom : List Point) : ℝ :=
  clip ((geomDepth arching geom / REF_DEPTH) *
    Real.sqrt (REF_AREA / max 10000 (geomArea geom))) 0.5 2.0

/-- Material shift `m_shift`: weighted speed-of-sound proxies
`sqrt(modulus/density)` of top and back plates, weighted 0.6 / 0.4. -/
def m_shift (mat : MaterialParams) : ℝ :=
  0.6 * Real.sqrt (mat.top_modulus / 12 * 400 / max 1 mat.top_density) +
  0.4 * Real.sqrt (mat.back_modulus / 10 * 600 / max 1 mat.back_density)

/-- `AcousticModel._calculate_physical_shifts`: the triple
`(h_shift, b_shift, m_shift)`. -/
def calculate_physical_shifts (mat : MaterialParams)
    (arching : Option (List Point × List Point)) (geom : List Point) : ℝ × ℝ × ℝ :=
  (h_shift arching geom, b_shift arching geom, m_shift mat)

/-- `AcousticModel.predict`: builds the mode list across the four acoustic
zones; empty geometry yields the empty list. -/
def predict (geom : List Point) (mat : MaterialParams)
    (arching : Option (List Point × List Point)) : List Mode :=
  match geom with
  | [] => []
  | p :: rest =>
    let g := p :: rest
    let hs := h_shift arching g
    let bs := b_shift arching g
    let ms := m_shift mat
    let zone1 : List Mode :=
      [⟨330 * hs * ms ^ (0.3 : ℝ), 8.5, 0.08⟩,
       ⟨550 * bs * ms, 2.2, 0.025⟩,
       ⟨670 * bs * ms, 5.0, 0.05⟩]
    let zone2 : List Mode :=
      ([916, 980, 1065, 1168, 1924, 1939, 2138] : List ℝ).map fun fb =>
        ⟨1.5 * fb * bs * ms, 0.5, 0.05⟩
    let zone3 : List Mode :=
      (linspace 2400 4500 8).map fun fb =>
        let f := fb * bs * ms
        ⟨f, 0.3 * (1 + 1.5 * Real.exp (-((f - 2500) ^ 2) / (2 * 1200 ^ 2))), 0.08⟩
    let zone4 : List Mode :=
      ([8500, 9500, 10500] : List ℝ).map fun fb =>
        let f := fb * bs * ms
        ⟨f, 0.2 * (1 / (1 + (f / 5000) ^ 4)), 0.12⟩
    zone1 ++ zone2 ++ zone3 ++ zone4

/-- Linear interpolation over a sorted table of (x, y) samples as `np.interp`
does: values are clamped to the first / last table entry outside the span. -/
def linInterp : List (ℝ × ℝ) → ℝ → ℝ
  | [], _ => 0
  | [xy], _ => xy.2
  | xy0 :: xy1 :: rest, x =>
    if x ≤ xy0.1 then xy0.2
    else if x ≤ xy1.1 then
      xy0.2 + (xy1.2 - xy0.2) * (x - xy0.1) / (xy1.1 - xy0.1)
    else linInterp (xy1 :: rest) x

/-- Window length used by the savgol smoothing branches:
`int(level * 100)`, bumped to the next odd number when even. -/
def smoothWindow (level : ℝ) : ℕ :=
  let w := (⌊level * 100⌋).toNat
  if w % 2 = 0 then w + 1 else w

/-- `AcousticModel.get_sampled_response`.  `raw` is the loaded reference
table (already offset by +50 dB) or `none` when the file was absent;
`savgol` stands for the external scipy `savgol_filter`. -/
def get_sampled_response (raw : Option (List ℝ)) (smoothing_level : ℝ)
    (savgol : List ℝ → ℕ → List ℝ) (freqs : List ℝ) : List ℝ :=
  match raw with
  | none => freqs.map fun _ => -60
  | some data =>
    let d1 :=
      if smoothing_level > 0 ∧ (⌊smoothing_level * 100⌋).toNat > 3 then
        savgol data (smoothWindow smoothing_level)
      else data
    let xs := linspace 100 8200 data.length
    freqs.map fun f =>
      let base := linInterp (xs.zip d1) f
      if f < 100 then
        20 * Real.logb 10 (max ((10 : ℝ) ^ (base / 20) * (f / 100) ^ 3) 1e-6)
      else if f > 8200 then
        20 * Real.logb 10 (max ((10 : ℝ) ^ (base / 20) * (8200 / f) ^ 4) 1e-6)
      else base

/-- Low-frequency radiation floor of `AcousticModel.calculate_spectrum`:
`0.05 * (f/200)**2 / (1 + (f/200)**2 + 1e-6)`. -/
def calcFloorMag (f : ℝ) : ℝ :=
  0.05 * (f / 200) ^ 2 / (1 + (f / 200) ^ 2 + 1e-6)

/-- Radiation high-pass of `AcousticModel.calculate_spectrum`:
`(f/400)**3 / (1 + (f/400)**3)`. -/
def calcHpRoll (f : ℝ) : ℝ :=
  (f / 400) ^ 3 / (1 + (f / 400) ^ 3)

/-- Lorentzian resonance term of `AcousticModel.calculate_spectrum`:
`amp * f0**2 / ((f0**2 - f**2) + 1j * gamma * f)` with `gamma = damping * f0`. -/
def calcModeTerm (m : Mode) (f : ℝ) : ℂ :=
  ((m.amp * m.freq ^ 2 : ℝ) : ℂ) /
    (((m.freq ^ 2 - f ^ 2 : ℝ) : ℂ) + Complex.I * ((m.damping * m.freq * f : ℝ) : ℂ))

/-- Complex response of the calculator at one frequency: radiation floor plus
the Lorentzian contributions of all modes. -/
def calcResponse (modes : List Mode) (f : ℝ) : ℂ :=
  ((calcFloorMag f : ℝ) : ℂ) + (modes.map fun m => calcModeTerm m f).sum

/-- Magnitude curve of the calculator at one frequency: absolute response,
shaped by the radiation high-pass, floored at 1e-9. -/
def calcMagnitude (modes : List Mode) (f : ℝ) : ℝ :=
  max (Complex.abs (calcResponse modes f) * calcHpRoll f) 1e-9

/-- `AcousticModel.calculate_spectrum`.  Returns the frequency grid and the
SPL curve in dB.  `rand` stands for the numpy uniform random draws used in
`NOISY` mode, `savgol` for the external scipy smoother. -/
def calculate_spectrum (modes : List Mode) (f_min f_max : ℝ) (n_points : ℕ)
    (mode : String) (noise_level smoothing_level : ℝ)
    (sampledRaw : Option (List ℝ)) (savgol : List ℝ → ℕ → List ℝ)
    (rand : ℕ → ℝ) : List ℝ × List ℝ :=
  let freqs := linspace f_min f_max n_points
  if mode = "FLAT" then
    (freqs, freqs.map fun f => 20 - (f / 8000) ^ 2)
  else if mode = "SAMPLED" then
    (freqs, get_sampled_response sampledRaw smoothing_level savgol freqs)
  else
    let spl0 := freqs.map fun f => 20 * Real.logb 10 (calcMagnitude modes f)
    let spl1 :=
      if mode = "NOISY" ∧ noise_level > 0 then
        spl0.enum.map fun p => p.2 + (rand p.1 - 0.5) * noise_level * 20
      else spl0
    let spl2 :=
      if smoothing_level > 0 ∧ (⌊smoothing_level * 100⌋).toNat > 3 then
        savgol spl1 (smoothWindow smoothing_level)
      else spl1
    (freqs, spl2)

/-! ## Synthesizer (`src/core/synthesizer.py`) -/

/-- The configured fundamental: a scalar frequency or a melody sequence of
(frequency, duration-seconds) notes, as stored in `Synthesizer.frequency`. -/
inductive FreqConfig where
  | scalar : ℝ → FreqConfig
  | melody : List (ℝ × ℝ) → FreqConfig

/-- The shared configuration of `Synthesizer` written by the setters and
snapshotted by the audio callback. -/
structure SynthConfig where
  sample_rate : ℝ
  frequency : FreqConfig
  modes : List Mode
  response_mode : String
  noise_level : ℝ
  smoothing_level : ℝ
  excitation_type : String
  bow_velocity : ℝ
  bow_force : ℝ

/-- The configuration as initialised by `Synthesizer.__init__`. -/
def initConfig : SynthConfig :=
  ⟨44100, .scalar 196, [], "MODEL", 0, 0, "sawtooth", 0.5, 0.5⟩

/-- `Synthesizer.update_modes`. -/
def update_modes (c : SynthConfig) (modes : List Mode) : SynthConfig :=
  { c with modes := modes }

/-- `Synthesizer.set_frequency`. -/
def set_frequency (c : SynthConfig) (f : FreqConfig) : SynthConfig :=
  { c with frequency := f }

/-- `Synthesizer.set_response_mode`. -/
def set_response_mode (c : SynthConfig) (mode : String) : SynthConfig :=
  { c with response_mode := mode }

/-- `Synthesizer.set_noise_level`. -/
def set_noise_level (c : SynthConfig) (level : ℝ) : SynthConfig :=
  { c with noise_level := level }

/-- `Synthesizer.set_smoothing_level`. -/
def set_smoothing_level (c : SynthConfig) (level : ℝ) : SynthConfig :=
  { c with smoothing_level := level }

/-- `Synthesizer.set_excitation_type`. -/
def set_excitation_type (c : SynthConfig) (t : String) : SynthConfig :=
  { c with excitation_type := t }

/-- `Synthesizer.set_bow_params`. -/
def set_bow_params (c : SynthConfig) (velocity force : ℝ) : SynthConfig :=
  { c with bow_velocity := velocity, bow_force := force }

/-- Python float modulo `x % y` for `y ≠ 0`:  `x - y * floor (x / y)`. -/
def pyMod (x y : ℝ) : ℝ := x - y * ⌊x / y⌋

/-- Linear scan of cumulative melody durations: the first note whose
`[elapsed, elapsed + dur)` interval contains `t`. -/
def findNote : List (ℝ × ℝ) → ℝ → ℝ → Option ℝ
  | [], _, _ => none
  | fd :: rest, t, elapsed =>
    if elapsed ≤ t ∧ t < elapsed + fd.2 then some fd.1
    else findNote rest t (elapsed + fd.2)

/-- The per-block fundamental-frequency resolution of
`Synthesizer._audio_callback`: the configured scalar, or the melody note
active at elapsed-time mod total melody duration.  A melody whose total
duration is zero (in particular an empty melody) raises ZeroDivisionError
in the source (`% total_duration` with `total_duration == 0`). -/
def resolve_f_base (fc : FreqConfig) (sample_count : ℕ) (sample_rate : ℝ) :
    Except String ℝ :=
  match fc with
  | .scalar f => .ok f
  | .melody notes =>
    let total := (notes.map Prod.snd).sum
    if total = 0 then .error "ZeroDivisionError"
    else
      let current_time := pyMod ((sample_count : ℝ) / sample_rate) total
      .ok ((findNote notes current_time 0).getD (notes.headI).1)

/-- First-order IIR high-pass `y[n] = x[n] - x[n-1] + alpha * y[n-1]`
carried over a block; returns the filtered block and the final
(x, y) filter state.  Used with `alpha = 0.995` by the sawtooth DC blocker
and with `alpha = 0.994` by the callback rumble filter. -/
def iirHighPass (alpha : ℝ) : List ℝ → ℝ → ℝ → List ℝ × ℝ × ℝ
  | [], xPrev, yPrev => ([], xPrev, yPrev)
  | x :: rest, xPrev, yPrev =>
    let y := x - xPrev + alpha * yPrev
    let r := iirHighPass alpha rest x y
    (y :: r.1, r.2)

/-- Fractional part `x - floor x` (`current_phases -= floor(current_phases)`). -/
def frac (x : ℝ) : ℝ := x - ⌊x⌋

/-- Private continuous state of `SawtoothSource`: oscillator phase and the
two DC-blocker histories. -/
structure SawtoothState where
  phase : ℝ
  dc_x_prev : ℝ
  dc_y_prev : ℝ

/-- Phase ramp of `SawtoothSource.generate`:
`phase + cumsum(inc) - inc` reduced mod 1, i.e. `frac (phase + i * inc)`. -/
def sawtoothPhases (phase0 inc : ℝ) (frames : ℕ) : List ℝ :=
  (List.range frames).map fun i => frac (phase0 + i * inc)

/-- `SawtoothSource.generate`: band-limited sawtooth (phase ramp through a
4-tap boxcar, matching `np.convolve(.., ones(4)/4, mode='same')` for blocks
of at least the kernel length), then the DC-blocking high-pass, scaled by
`bow_velocity`.  Returns the block and the advanced state. -/
def sawtooth_generate (frames : ℕ) (frequency sample_rate : ℝ)
    (st : SawtoothState) (bow_velocity bow_force : ℝ) :
    List ℝ × SawtoothState :=
  let inc := frequency / sample_rate
  let phases := sawtoothPhases st.phase inc frames
  let newPhase := pyMod (frac (st.phase + ((frames : ℝ) - 1) * inc) + inc) 1
  let raw := phases.map fun p => 2 * (p - 0.5)
  let g : ℤ → ℝ := fun j => if 0 ≤ j then raw.getD j.toNat 0 else 0
  let source := (List.range frames).map fun i =>
    (g ((i : ℤ) - 2) + g ((i : ℤ) - 1) + g (i : ℤ) + g ((i : ℤ) + 1)) / 4
  let r := iirHighPass 0.995 source st.dc_x_prev st.dc_y_prev
  (r.1.map fun x => x * bow_velocity, ⟨newPhase, r.2.1, r.2.2⟩)

/-- Number of grid nodes of `FDTDSource` (constructor default, the only
instantiation). -/
def fdtdNodes : ℕ := 200

/-- Uniform damping multiplier of `FDTDSource`. -/
def fdtdDamping : ℝ := 0.9995

/-- Private continuous state of `FDTDSource`: current and previous
displacement grids. -/
structure FDTDState where
  u : Fin 200 → ℝ
  u_prev : Fin 200 → ℝ

/-- Read a grid at a natural index, zero outside the grid (used to express
the vectorised numpy slice updates index-wise). -/
def getU (u : Fin 200 → ℝ) (j : ℕ) : ℝ :=
  if h : j < 200 then u ⟨j, h⟩ else 0

/-- Squared Courant number of `FDTDSource.generate`:
`(c * dt / dx)**2` with `c = 2 * frequency`, `dt = 1 / sample_rate`,
`dx = 1 / nodes`. -/
def fdtd_r2 (frequency sample_rate : ℝ) : ℝ :=
  let dx := 1 / (200 : ℝ)
  let dt := 1 / sample_rate
  let c := 2 * frequency
  (c * dt / dx) ^ 2

/-- The squared Courant number actually used in the grid update: replaced by
0.99 when the computed value exceeds 1. -/
def fdtd_r2_clamped (frequency sample_rate : ℝ) : ℝ :=
  if fdtd_r2 frequency sample_rate > 1 then 0.99 else fdtd_r2 frequency sample_rate

/-- One time step of `FDTDSource.generate`: discrete wave equation on the
interior, sinusoidal drive at the quarter-length bow node (200 // 4 = 50),
uniform damping, and fixed (zero) boundaries. -/
def fdtdStep (st : FDTDState) (r2 drive_strength frequency dt : ℝ) (t : ℕ) :
    FDTDState :=
  let u_wave : Fin 200 → ℝ := fun i =>
    if 1 ≤ i.val ∧ i.val ≤ 198 then
      2 * getU st.u i.val - getU st.u_prev i.val +
        r2 * (getU st.u (i.val + 1) - 2 * getU st.u i.val + getU st.u (i.val - 1))
    else 0
  let u_drive : Fin 200 → ℝ := fun i =>
    u_wave i +
      if i.val = 50 then drive_strength * Real.sin (2 * Real.pi * frequency * t * dt)
      else 0
  let u_damp : Fin 200 → ℝ := fun i => fdtdDamping * u_drive i
  let u_next : Fin 200 → ℝ := fun i =>
    if i.val = 0 ∨ i.val = 199 then 0 else u_damp i
  ⟨u_next, st.u⟩

/-- The time loop of `FDTDSource.generate`: runs `n` steps from step index
`t`, emitting the displacement near the far boundary (`u[-2]`),
gain-compensated by 10000. -/
def fdtdIter (r2 drive_strength frequency dt : ℝ) :
    ℕ → ℕ → FDTDState → List ℝ × FDTDState
  | 0, _, st => ([], st)
  | n + 1, t, st =>
    let st1 := fdtdStep st r2 drive_strength frequency dt t
    let r := fdtdIter r2 drive_strength frequency dt n (t + 1) st1
    (getU st1.u 198 * 10000 :: r.1, r.2)

/-- `FDTDSource.generate`. -/
def fdtd_generate (frames : ℕ) (frequency sample_rate : ℝ) (st : FDTDState)
    (bow_velocity bow_force : ℝ) : List ℝ × FDTDState :=
  fdtdIter (fdtd_r2_clamped frequency sample_rate)
    (bow_velocity * bow_force * 0.5) frequency (1 / sample_rate) frames 0 st

/-! ## The audio callback (`Synthesizer._audio_callback`) -/

/-- `np.fft.rfft`: the first `n/2 + 1` discrete Fourier coefficients of a
real block. -/
def rfft (x : List ℝ) : List ℂ :=
  (List.range (x.length / 2 + 1)).map fun k =>
    ((List.range x.length).map fun n =>
      ((x.getD n 0 : ℝ) : ℂ) *
        Complex.exp (-2 * Real.pi * Complex.I * k * n / x.length)).sum

/-- `np.fft.rfftfreq n d`: the frequency of each rfft bin. -/
def rfftfreq (n : ℕ) (d : ℝ) : List ℝ :=
  (List.range (n / 2 + 1)).map fun k => k / (d * n)

/-- `np.fft.irfft`: real inverse transform of a half spectrum, reconstructing
the full spectrum by Hermitian symmetry. -/
def irfft (X : List ℂ) (n : ℕ) : List ℝ :=
  (List.range n).map fun j =>
    (((List.range n).map fun k =>
      (if k ≤ n / 2 then X.getD k 0 else (starRingEnd ℂ) (X.getD (n - k) 0)) *
        Complex.exp (2 * Real.pi * Complex.I * k * j / n)).sum / n).re

/-- Low-frequency radiation floor built by the audio callback:
`0.05 * (f/200)**2 / (1 + (f/200)**2 + 1e-6)`. -/
def engineFloorMag (f : ℝ) : ℝ :=
  0.05 * (f / 200) ^ 2 / (1 + (f / 200) ^ 2 + 1e-6)

/-- Radiation high-pass built by the audio callback:
`(f/400)**3 / (1 + (f/400)**3)`. -/
def engineHpRoll (f : ℝ) : ℝ :=
  (f / 400) ^ 3 / (1 + (f / 400) ^ 3)

/-- Per-mode resonance term built by the audio callback: modes above 20 kHz
are skipped, otherwise `amp / (1 + 1j * (f - fc) / (bw/2 + 1e-6))` with
`bw = damping * fc`. -/
def engineModeTerm (m : Mode) (f : ℝ) : ℂ :=
  if m.freq > 20000 then 0
  else ((m.amp : ℝ) : ℂ) /
    (1 + Complex.I * ((f - m.freq : ℝ) : ℂ) /
      ((m.damping * m.freq / 2 + 1e-6 : ℝ) : ℂ))

/-- Complex MODEL-mode response of the callback before the radiation
high-pass: floor plus the per-mode terms. -/
def engineModelBase (modes : List Mode) (f : ℝ) : ℂ :=
  ((engineFloorMag f : ℝ) : ℂ) + (modes.map fun m => engineModeTerm m f).sum

/-- Complex MODEL-mode filter of the callback at one frequency (zero noise,
zero smoothing): base response times the radiation high-pass. -/
def engineModelResponse (modes : List Mode) (f : ℝ) : ℂ :=
  engineModelBase modes f * ((engineHpRoll f : ℝ) : ℂ)

/-- The complex filter response the callback builds over the rfft bins,
for each response-mode selector.  `sampledRawLin` is the synthesizer copy of
the reference table, stored in linear magnitude (`10**((x+50)/20)`), or
`none` when the file was absent; `savgol` and `rand` stand for the external
scipy smoother and the numpy random draws. -/
def engineResponseList (mode_choice : String) (modes : List Mode)
    (noise_val smooth_val : ℝ) (sampledRawLin : Option (List ℝ))
    (savgol : List ℝ → ℕ → List ℝ) (rand : ℕ → ℝ) (freqs : List ℝ) :
    List ℂ :=
  if mode_choice = "FLAT" then
    freqs.map fun f => ((0.2 - 0.1 * (f / 10000) ^ 2 : ℝ) : ℂ)
  else if mode_choice = "SAMPLED" ∧ sampledRawLin ≠ none then
    let data := sampledRawLin.getD []
    let d1 :=
      if smooth_val > 0 ∧ (⌊smooth_val * 100⌋).toNat > 3 then
        savgol data (smoothWindow smooth_val)
      else data
    let xs := linspace 100 8200 data.length
    freqs.map fun f =>
      let magv := linInterp (xs.zip d1) f
      let magv2 := if f < 100 then magv * (f / 100) ^ 3 else magv
      ((magv2 * 0.1 : ℝ) : ℂ)
  else
    let base := freqs.map fun f => engineModelResponse modes f
    let wn :=
      if mode_choice = "NOISY" ∧ noise_val > 0 then
        base.enum.map fun p =>
          p.2 * (((1 + (rand p.1 - 0.5) * noise_val * 2 : ℝ) : ℝ) : ℂ)
      else base
    if smooth_val > 0 ∧ (⌊smooth_val * 100⌋).toNat > 3 then
      let mags := wn.map Complex.abs
      let magsS := savgol mags (smoothWindow smooth_val)
      (wn.zip magsS).map fun p =>
        ((p.2 : ℝ) : ℂ) * Complex.exp (Complex.I * ((Complex.arg p.1 : ℝ) : ℂ))
    else wn

/-- Mutable per-callback state of `Synthesizer` outside the config: elapsed
sample count, rumble high-pass histories, and the bounded visualization
queue (capacity 10, drop-on-full). -/
structure CallbackState where
  sample_count : ℕ
  hpf_x_prev : ℝ
  hpf_y_prev : ℝ
  audio_queue : List (List ℝ)

/-- An excitation source block generator, as the callback sees it through
the `ExcitationSource` interface: frames, frequency, sample rate, bow
velocity, bow force to a block of samples. -/
def ExcitationGen : Type := ℕ → ℝ → ℝ → ℝ → ℝ → List ℝ

/-- `Synthesizer._audio_callback`.  Faults raised inside the body are
modelled with `Except`: the only fault point reachable through the
configuration is the melody resolution (`% 0`); the push to the
visualization queue is the only guarded operation (queue.Full is swallowed
by dropping the block).  Returns the output block and the advanced state. -/
def audio_callback (cfg : SynthConfig) (st : CallbackState)
    (gen : ExcitationGen) (sampledRawLin : Option (List ℝ))
    (savgol : List ℝ → ℕ → List ℝ) (rand : ℕ → ℝ) (frames : ℕ) :
    Except String (List ℝ × CallbackState) :=
  match resolve_f_base cfg.frequency st.sample_count cfg.sample_rate with
  | .error e => .error e
  | .ok f_base =>
    let vibrato_speed : ℝ := 5.5
    let vibrato_depth : ℝ := 0.0
    let t0 := (st.sample_count : ℝ) / cfg.sample_rate
    let f_current0 :=
      f_base * (1 + vibrato_depth * Real.sin (2 * Real.pi * vibrato_speed * t0))
    let source := gen frames f_current0 cfg.sample_rate cfg.bow_velocity cfg.bow_force
    let spectrum := rfft source
    let freqs := rfftfreq frames (1 / cfg.sample_rate)
    let response := engineResponseList cfg.response_mode cfg.modes
      cfg.noise_level cfg.smoothing_level sampledRawLin savgol rand freqs
    let filtered := (spectrum.zip response).map fun p => p.1 * p.2
    let output := irfft filtered (2 * (filtered.length - 1))
    let hp := iirHighPass 0.994 output st.hpf_x_prev st.hpf_y_prev
    let sig := hp.1
    let rms := Real.sqrt ((sig.map fun x => x ^ 2).sum / sig.length)
    let sig2 :=
      if rms > 1e-6 then sig.map fun x => x * (0.1 / (rms + 1e-9))
      else if rms > 0 then sig.map fun x => x * (0.1 / 1e-6)
      else sig
    let out := sig2.map fun x => Real.tanh (x * 1.5) * 0.5
    let q1 :=
      if st.audio_queue.length < 10 then st.audio_queue ++ [out]
      else st.audio_queue
    .ok (out, ⟨st.sample_count + frames, hp.2.1, hp.2.2, q1⟩)

/-! ## Helper lemmas -/

theorem clip_lo_le {x lo hi : ℝ} (h : lo ≤ hi) : lo ≤ clip x lo hi :=
  le_min (le_max_right x lo) h

theorem pyMod_eq_self {x y : ℝ} (h0 : 0 ≤ x) (hxy : x < y) : pyMod x y = x := by
  have hy : 0 < y := h0.trans_lt hxy
  have hfl : ⌊x / y⌋ = 0 :=
    Int.floor_eq_zero_iff.mpr ⟨div_nonneg h0 hy.le, (div_lt_one hy).mpr hxy⟩
  unfold pyMod
  rw [hfl]
  simp

theorem pyMod_base {y : ℝ} (hy : y ≠ 0) : pyMod y y = 0 := by
  unfold pyMod
  rw [div_self hy]
  simp

theorem calcFloorMag_nonneg (f : ℝ) : 0 ≤ calcFloorMag f := by
  unfold calcFloorMag
  positivity

/-! ## Claim theorems -/

/-- C7: if the reference data file is absent (reference left unset), the
interpolation query of `get_sampled_response` returns a constant -60 dB
floor at every queried frequency. -/
theorem missing_reference_gives_minus60 (smoothing_level : ℝ)
    (savgol : List ℝ → ℕ → List ℝ) (freqs : List ℝ) :
    get_sampled_response none smoothing_level savgol freqs =
      freqs.map fun _ => (-60 : ℝ) := rfl

/-- C4 counterexample: calling `set_frequency` with the out-of-range value
-5 changes the shared configuration, so the configuration read by the audio
callback is not left unchanged; the setters perform no validation. -/
theorem set_frequency_publishes_invalid :
    (set_frequency initConfig (.scalar (-5))).frequency = .scalar (-5) ∧
    initConfig.frequency = .scalar 196 ∧
    set_frequency initConfig (.scalar (-5)) ≠ initConfig := by
  refine ⟨rfl, rfl, fun h => ?_⟩
  have h2 := congrArg SynthConfig.frequency h
  simp only [set_frequency, initConfig, FreqConfig.scalar.injEq] at h2
  norm_num at h2

/-- C4 amended: the setters perform no range validation; every value,
including out-of-range ones such as a frequency at most 0, is stored in the
shared configuration unchanged, and the audio callback frequency resolution
reads the stored value. -/
theorem setters_publish_unvalidated :
    ∀ (c : SynthConfig) (fc : FreqConfig) (v force level x : ℝ)
      (sc : ℕ) (sr : ℝ),
    (set_frequency c fc).frequency = fc ∧
    (set_bow_params c v force).bow_velocity = v ∧
    (set_bow_params c v force).bow_force = force ∧
    (set_noise_level c level).noise_level = level ∧
    resolve_f_base (set_frequency c (.scalar x)).frequency sc sr = .ok x :=
  fun _ _ _ _ _ _ _ _ => ⟨rfl, rfl, rfl, rfl, rfl⟩

/-- C5: the modelled Geometry Feature Extractor returns the absolute value
of the signed shoelace polygon area relative to a given axis coordinate and
0 for fewer than 3 points; its depth computation returns max-minus-min of
the elevation axis and a fixed fallback for an empty profile.  Both are
total functions: no input raises an error. -/
theorem geometry_extractor_fallbacks :
    (∀ (pts : List Point) (axisX : ℝ), pts.length < 3 →
      calculate_area pts axisX = 0) ∧
    (∀ (pts : List Point) (axisX : ℝ), 3 ≤ pts.length →
      calculate_area pts axisX = |shoelaceSum pts axisX / 2|) ∧
    get_max_depth [] = 20 ∧
    (∀ (p : Point) (rest : List Point),
      get_max_depth (p :: rest) = listMaxY (p :: rest) - listMinY (p :: rest)) := by
  refine ⟨?_, ?_, rfl, fun p rest => rfl⟩
  · intro pts a h
    unfold calculate_area
    rw [if_pos h]
  · intro pts a h
    unfold calculate_area
    rw [if_neg (not_lt.mpr h)]

/-- Witness for C5 at concrete inputs: the empty outline yields area 0 and a
concrete triangle yields the absolute shoelace value. -/
theorem geometry_extractor_fallbacks_witness :
    (([] : List Point).length < 3 ∧ calculate_area [] 7 = 0) ∧
    (3 ≤ ([⟨0, 0⟩, ⟨4, 0⟩, ⟨4, 3⟩] : List Point).length ∧
      calculate_area [⟨0, 0⟩, ⟨4, 0⟩, ⟨4, 3⟩] 0 =
        |shoelaceSum [⟨0, 0⟩, ⟨4, 0⟩, ⟨4, 3⟩] 0 / 2|) :=
  ⟨⟨by simp, geometry_extractor_fallbacks.1 [] 7 (by simp)⟩,
   ⟨by simp, geometry_extractor_fallbacks.2.1 _ 0 (by simp)⟩⟩

/-- C6: with the melody `[(440, 0.5), (880, 0.5)]` at sample rate 44100, the
per-block note resolution yields 440 Hz at elapsed time 0.25 s (11025
samples), 880 Hz at 0.75 s (33075 samples), and wraps back to 440 Hz at
1.0 s (44100 samples). -/
theorem melody_note_resolution :
    resolve_f_base (.melody [(440, 0.5), (880, 0.5)]) 11025 44100 = .ok 440 ∧
    resolve_f_base (.melody [(440, 0.5), (880, 0.5)]) 33075 44100 = .ok 880 ∧
    resolve_f_base (.melody [(440, 0.5), (880, 0.5)]) 44100 44100 = .ok 440 := by
  have htot : (([((440 : ℝ), (0.5 : ℝ)), (880, 0.5)]).map Prod.snd).sum = 1 := by
    norm_num
  refine ⟨?_, ?_, ?_⟩
  · simp only [resolve_f_base, htot]
    rw [if_neg (by norm_num)]
    have h1 : ((11025 : ℕ) : ℝ) / 44100 = 0.25 := by norm_num
    rw [h1, pyMod_eq_self (by norm_num) (by norm_num)]
    simp only [findNote]
    rw [if_pos (by norm_num)]
    rfl
  · simp only [resolve_f_base, htot]
    rw [if_neg (by norm_num)]
    have h1 : ((33075 : ℕ) : ℝ) / 44100 = 0.75 := by norm_num
    rw [h1, pyMod_eq_self (by norm_num) (by norm_num)]
    simp only [findNote]
    rw [if_neg (by norm_num), if_pos (by norm_num)]
    rfl
  · simp only [resolve_f_base, htot]
    rw [if_neg (by norm_num)]
    have h1 : ((44100 : ℕ) : ℝ) / 44100 = 1 := by norm_num
    rw [h1, pyMod_base (by norm_num)]
    simp only [findNote]
    rw [if_pos (by norm_num)]
    rfl

/-- C9: in the finite-difference source the squared Courant number used in
the grid update never exceeds 1 (replaced by 0.99 when the computed value is
larger), and after every time step the two boundary grid samples are exactly
zero. -/
theorem fdtd_courant_and_boundaries :
    ∀ frequency sample_rate : ℝ,
    fdtd_r2_clamped frequency sample_rate ≤ 1 ∧
    (fdtd_r2 frequency sample_rate > 1 →
      fdtd_r2_clamped frequency sample_rate = 0.99) ∧
    ∀ (st : FDTDState) (r2 drive_strength dt : ℝ) (t : ℕ),
      getU (fdtdStep st r2 drive_strength frequency dt t).u 0 = 0 ∧
      getU (fdtdStep st r2 drive_strength frequency dt t).u 199 = 0 := by
  intro frequency sample_rate
  refine ⟨?_, ?_, ?_⟩
  · unfold fdtd_r2_clamped
    split
    · norm_num
    · next h => exact le_of_not_lt h
  · intro h
    unfold fdtd_r2_clamped
    rw [if_pos h]
  · intro st r2 d dt t
    constructor <;> norm_num [fdtdStep, getU]

/-- Witness for C9 at a concrete input where the raw Courant number exceeds
1 (frequency 441, sample rate 44100 gives 16) and a concrete nonzero grid
state. -/
theorem fdtd_courant_and_boundaries_witness :
    fdtd_r2_clamped 441 44100 = 0.99 ∧
    getU (fdtdStep ⟨fun _ => 1, fun _ => 2⟩ 0.5 1 441 (1 / 44100) 0).u 0 = 0 ∧
    getU (fdtdStep ⟨fun _ => 1, fun _ => 2⟩ 0.5 1 441 (1 / 44100) 0).u 199 = 0 :=
  ⟨(fdtd_courant_and_boundaries 441 44100).2.1 (by norm_num [fdtd_r2]),
   ((fdtd_courant_and_boundaries 441 44100).2.2 ⟨fun _ => 1, fun _ => 2⟩ 0.5 1
      (1 / 44100) 0).1,
   ((fdtd_courant_and_boundaries 441 44100).2.2 ⟨fun _ => 1, fun _ => 2⟩ 0.5 1
      (1 / 44100) 0).2⟩

/-- C10: the periodic-oscillator output is exactly linear in bow velocity —
for every frame count, frequency, sample rate, prior state and bow force,
`sawtooth_generate` with velocity `v` returns `v` times the block it would
return with velocity 1, the advanced state (phase and DC-blocker history) is
identical, and bow force has no effect on output or state. -/
theorem sawtooth_linear_in_bow_velocity :
    ∀ (frames : ℕ) (frequency sample_rate : ℝ) (st : SawtoothState)
      (v bow_force bow_force' : ℝ),
    (sawtooth_generate frames frequency sample_rate st v bow_force).1 =
      ((sawtooth_generate frames frequency sample_rate st 1 bow_force').1).map
        (fun x => v * x) ∧
    (sawtooth_generate frames frequency sample_rate st v bow_force).2 =
      (sawtooth_generate frames frequency sample_rate st 1 bow_force').2 := by
  intro frames frequency sample_rate st v bf bf'
  constructor
  · simp only [sawtooth_generate, List.map_map]
    congr 1
    funext x
    simp only [Function.comp_apply]
    ring
  · rfl

theorem calcMagnitude_nil (f : ℝ) :
    calcMagnitude [] f = max (calcFloorMag f * calcHpRoll f) 1e-9 := by
  unfold calcMagnitude calcResponse
  simp [Complex.abs_ofReal, abs_of_nonneg (calcFloorMag_nonneg f)]

/-- C8: for an empty outline the Modal Predictor returns the empty mode
list, and the Spectrum Calculator on the empty mode list in MODEL mode (zero
noise, zero smoothing) returns exactly the flat radiation-floor curve: the
low-frequency floor term shaped by the radiation high-pass, floored at 1e-9
before conversion to dB, with no mode contributions. -/
theorem empty_outline_flat_floor :
    (∀ (mat : MaterialParams) (arching : Option (List Point × List Point)),
      predict [] mat arching = []) ∧
    ∀ (f_min f_max : ℝ) (n_points : ℕ) (sampledRaw : Option (List ℝ))
      (savgol : List ℝ → ℕ → List ℝ) (rand : ℕ → ℝ),
      calculate_spectrum [] f_min f_max n_points "MODEL" 0 0 sampledRaw savgol rand =
        (linspace f_min f_max n_points,
         (linspace f_min f_max n_points).map fun f =>
           20 * Real.logb 10 (max (calcFloorMag f * calcHpRoll f) 1e-9)) := by
  constructor
  · intro mat arching
    rfl
  · intro f_min f_max n_points sampledRaw savgol rand
    simp only [calculate_spectrum]
    rw [if_neg (by simp), if_neg (by simp), if_neg (by norm_num),
      if_neg (by norm_num)]
    simp [calcMagnitude_nil]

theorem h_shift_pos (arching : Option (List Point × List Point))
    (geom : List Point) : 0 < h_shift arching geom :=
  lt_of_lt_of_le (by norm_num) (clip_lo_le (by norm_num))

theorem b_shift_pos (arching : Option (List Point × List Point))
    (geom : List Point) : 0 < b_shift arching geom :=
  lt_of_lt_of_le (by norm_num) (clip_lo_le (by norm_num))

theorem mem_linspace {a b : ℝ} {n : ℕ} {x : ℝ} (h : x ∈ linspace a b n) :
    ∃ j : ℕ, j < n ∧ x = a + (b - a) * j / ((n : ℝ) - 1) := by
  unfold linspace at h
  obtain ⟨j, hj, hx⟩ := List.mem_map.mp h
  exact ⟨j, List.mem_range.mp hj, hx.symm⟩

theorem m_shift_pos (mat : MaterialParams) (htm : 0 < mat.top_modulus)
    (hbm : 0 < mat.back_modulus) : 0 < m_shift mat := by
  unfold m_shift
  have h1 : 0 < mat.top_modulus / 12 * 400 / max 1 mat.top_density :=
    div_pos (mul_pos (div_pos htm (by norm_num)) (by norm_num))
      (lt_of_lt_of_le one_pos (le_max_left 1 _))
  have h2 : 0 < mat.back_modulus / 10 * 600 / max 1 mat.back_density :=
    div_pos (mul_pos (div_pos hbm (by norm_num)) (by norm_num))
      (lt_of_lt_of_le one_pos (le_max_left 1 _))
  have s1 := Real.sqrt_pos.mpr h1
  have s2 := Real.sqrt_pos.mpr h2
  linarith

/-- C3: for every non-empty geometry point list and positive material
parameters, `predict` returns a mode list in which every mode has frequency
strictly positive, amplitude nonnegative, and damping strictly between 0
and 1 (the statement is vacuous for empty geometry, where the list is
empty). -/
theorem predict_modes_valid :
    ∀ (geom : List Point) (mat : MaterialParams)
      (arching : Option (List Point × List Point)),
    0 < mat.top_density → 0 < mat.top_modulus →
    0 < mat.back_density → 0 < mat.back_modulus →
    ∀ m ∈ predict geom mat arching,
      0 < m.freq ∧ 0 ≤ m.amp ∧ 0 < m.damping ∧ m.damping < 1 := by
  intro geom mat arching _ htm _ hbm m hm
  cases geom with
  | nil => simp [predict] at hm
  | cons p rest =>
    have hh := h_shift_pos arching (p :: rest)
    have hb := b_shift_pos arching (p :: rest)
    have hms := m_shift_pos mat htm hbm
    simp only [predict, List.mem_append, List.mem_map, List.mem_cons,
      List.not_mem_nil, or_false] at hm
    rcases hm with
      (((rfl | rfl | rfl) | ⟨fb, hfb, rfl⟩) | ⟨fb, hfb, rfl⟩) | ⟨fb, hfb, rfl⟩
    · exact ⟨mul_pos (mul_pos (by norm_num) hh) (Real.rpow_pos_of_pos hms _),
        by norm_num, by norm_num, by norm_num⟩
    · exact ⟨mul_pos (mul_pos (by norm_num) hb) hms,
        by norm_num, by norm_num, by norm_num⟩
    · exact ⟨mul_pos (mul_pos (by norm_num) hb) hms,
        by norm_num, by norm_num, by norm_num⟩
    · have hfb' : (0 : ℝ) < fb := by
        rcases hfb with rfl | rfl | rfl | rfl | rfl | rfl | rfl <;> norm_num
      exact ⟨mul_pos (mul_pos (mul_pos (by norm_num) hfb') hb) hms,
        by norm_num, by norm_num, by norm_num⟩
    · obtain ⟨j, hj, rfl⟩ := mem_linspace hfb
      have hj0 : (0 : ℝ) ≤ (j : ℝ) := Nat.cast_nonneg j
      have hfb' : (0 : ℝ) < 2400 + (4500 - 2400) * (j : ℝ) / (((8 : ℕ) : ℝ) - 1) := by
        nlinarith
      exact ⟨mul_pos (mul_pos hfb' hb) hms, by positivity,
        by norm_num, by norm_num⟩
    · have hfb' : (0 : ℝ) < fb := by
        rcases hfb with rfl | rfl | rfl <;> norm_num
      exact ⟨mul_pos (mul_pos hfb' hb) hms, by positivity,
        by norm_num, by norm_num⟩

/-- Witness for C3 at a concrete triangle outline and the baseline
spruce/maple material parameters. -/
theorem predict_modes_valid_witness :
    (0 : ℝ) < (⟨400, 12, 600, 10⟩ : MaterialParams).top_density ∧
    (0 : ℝ) < (⟨400, 12, 600, 10⟩ : MaterialParams).top_modulus ∧
    (0 : ℝ) < (⟨400, 12, 600, 10⟩ : MaterialParams).back_density ∧
    (0 : ℝ) < (⟨400, 12, 600, 10⟩ : MaterialParams).back_modulus ∧
    ∀ m ∈ predict [⟨0, 0⟩, ⟨100, 0⟩, ⟨50, 200⟩] ⟨400, 12, 600, 10⟩ none,
      0 < m.freq ∧ 0 ≤ m.amp ∧ 0 < m.damping ∧ m.damping < 1 :=
  ⟨by norm_num, by norm_num, by norm_num, by norm_num,
   predict_modes_valid [⟨0, 0⟩, ⟨100, 0⟩, ⟨50, 200⟩] ⟨400, 12, 600, 10⟩ none
     (by norm_num) (by norm_num) (by norm_num) (by norm_num)⟩

/-- C2 counterexample: with an empty melody sequence configured, the audio
callback body raises (ZeroDivisionError at the `% total_duration` step)
instead of substituting a silent block — nothing in the callback catches it,
so the fault propagates to the audio backend. -/
theorem audio_callback_empty_melody_raises :
    audio_callback { initConfig with frequency := .melody [] } ⟨0, 0, 0, []⟩
      (fun n _ _ _ _ => List.replicate n 0) none (fun l _ => l) (fun _ => 0)
      1024 = .error "ZeroDivisionError" := by
  have hres : resolve_f_base
      ({ initConfig with frequency := .melody [] } : SynthConfig).frequency
      (0 : ℕ) ({ initConfig with frequency := .melody [] } : SynthConfig).sample_rate =
      .error "ZeroDivisionError" := by
    simp [resolve_f_base]
  unfold audio_callback
  rw [hres]

/-- C2 amended: the callback guards only the visualization-queue push
(queue.Full is swallowed by dropping the block); a fault in the callback
body — here, a configured melody whose total duration is zero, which makes
the elapsed-time modulo raise ZeroDivisionError — propagates out of the
callback instead of being replaced by a silent block. -/
theorem audio_callback_zero_melody_error :
    ∀ (cfg : SynthConfig) (st : CallbackState) (gen : ExcitationGen)
      (sampledRawLin : Option (List ℝ)) (savgol : List ℝ → ℕ → List ℝ)
      (rand : ℕ → ℝ) (frames : ℕ) (notes : List (ℝ × ℝ)),
    cfg.frequency = .melody notes → (notes.map Prod.snd).sum = 0 →
    audio_callback cfg st gen sampledRawLin savgol rand frames =
      .error "ZeroDivisionError" := by
  intro cfg st gen sampledRawLin savgol rand frames notes h1 h2
  have hres : resolve_f_base cfg.frequency st.sample_count cfg.sample_rate =
      .error "ZeroDivisionError" := by
    rw [h1]
    simp [resolve_f_base, h2]
  unfold audio_callback
  rw [hres]

/-- Witness for C2 at a concrete configuration: a one-note melody of zero
duration, a nonzero callback state and a silent-block generator. -/
theorem audio_callback_zero_melody_error_witness :
    audio_callback { initConfig with frequency := .melody [((100 : ℝ), (0 : ℝ))] }
      ⟨5, 1, 2, []⟩ (fun n _ _ _ _ => List.replicate n 1) none (fun l _ => l)
      (fun _ => 0.5) 512 = .error "ZeroDivisionError" :=
  audio_callback_zero_melody_error _ _ _ _ _ _ _ [((100 : ℝ), (0 : ℝ))] rfl
    (by norm_num)

/-- C1 counterexample: for the single mode (200 Hz, amplitude 1, damping
1/2) at frequency 200 Hz, the magnitude of the complex filter the callback
builds (detuned one-pole resonator) differs from the magnitude curve the
Spectrum Calculator computes (Lorentzian resonance): the formulas are not
identical. -/
theorem engine_calc_filter_mismatch :
    Complex.abs (engineModelResponse [⟨200, 1, 1 / 2⟩] 200) ≠
      calcMagnitude [⟨200, 1, 1 / 2⟩] 200 := by
  have hterm : engineModeTerm ⟨200, 1, 1 / 2⟩ 200 = 1 := by
    unfold engineModeTerm
    rw [if_neg (by norm_num)]
    norm_num
  have hhp : engineHpRoll 200 = 1 / 9 := by
    unfold engineHpRoll
    norm_num
  have hfl0 : (0 : ℝ) ≤ calcFloorMag 200 := calcFloorMag_nonneg 200
  have hfl1 : calcFloorMag 200 < 1 := by
    unfold calcFloorMag
    norm_num
  have hengine : Complex.abs (engineModelResponse [⟨200, 1, 1 / 2⟩] 200) =
      (calcFloorMag 200 + 1) * (1 / 9) := by
    unfold engineModelResponse engineModelBase
    rw [hhp, show engineFloorMag 200 = calcFloorMag 200 from rfl]
    simp only [List.map_cons, List.map_nil, List.sum_cons, List.sum_nil,
      add_zero, hterm]
    rw [show ((calcFloorMag 200 : ℝ) : ℂ) + 1 =
        ((calcFloorMag 200 + 1 : ℝ) : ℂ) by push_cast; ring]
    rw [← Complex.ofReal_mul, Complex.abs_ofReal]
    exact abs_of_nonneg (by nlinarith)
  have hcterm : calcModeTerm ⟨200, 1, 1 / 2⟩ 200 = -2 * Complex.I := by
    unfold calcModeTerm
    norm_num
    rw [div_eq_iff (mul_ne_zero Complex.I_ne_zero (by norm_num))]
    have hI : Complex.I * Complex.I = -1 := Complex.I_mul_I
    linear_combination (40000 : ℂ) * hI
  have hcresp : calcResponse [⟨200, 1, 1 / 2⟩] 200 =
      ((calcFloorMag 200 : ℝ) : ℂ) + ((-2 : ℝ) : ℂ) * Complex.I := by
    unfold calcResponse
    simp only [List.map_cons, List.map_nil, List.sum_cons, List.sum_nil,
      add_zero, hcterm]
    push_cast
    ring
  have habs : Complex.abs (calcResponse [⟨200, 1, 1 / 2⟩] 200) =
      Real.sqrt (calcFloorMag 200 ^ 2 + 4) := by
    rw [hcresp, Complex.abs_add_mul_I]
    norm_num
  have h2le : (2 : ℝ) ≤ Real.sqrt (calcFloorMag 200 ^ 2 + 4) := by
    have h4 : (4 : ℝ) ≤ calcFloorMag 200 ^ 2 + 4 := by
      nlinarith [sq_nonneg (calcFloorMag 200)]
    have hsq4 : Real.sqrt 4 = 2 := by
      rw [show (4 : ℝ) = 2 ^ 2 by norm_num,
        Real.sqrt_sq (by norm_num : (0 : ℝ) ≤ 2)]
    have hs := Real.sqrt_le_sqrt h4
    rw [hsq4] at hs
    exact hs
  have hchp : calcHpRoll 200 = 1 / 9 := by
    unfold calcHpRoll
    norm_num
  apply ne_of_lt
  rw [hengine]
  unfold calcMagnitude
  rw [habs, hchp]
  have hlt : (calcFloorMag 200 + 1) * (1 / 9) < 2 * (1 / 9) := by nlinarith
  have hge : 2 * (1 / 9 : ℝ) ≤
      max (Real.sqrt (calcFloorMag 200 ^ 2 + 4) * (1 / 9)) 1e-9 :=
    le_max_of_le_left (by nlinarith)
  linarith

/-- C1 amended: the radiation floor term and the radiation high-pass of the
callback filter and of the Spectrum Calculator are identical formulas, and
for the empty mode list in MODEL mode with zero noise and zero smoothing the
callback filter magnitude equals the calculator magnitude wherever the floor
curve is at least the 1e-9 flooring; the per-mode resonance formulas differ
(detuned one-pole versus Lorentzian), so the equality fails for non-empty
mode lists. -/
theorem engine_calc_shared_floor :
    (∀ f : ℝ, engineFloorMag f = calcFloorMag f) ∧
    (∀ f : ℝ, engineHpRoll f = calcHpRoll f) ∧
    ∀ f : ℝ, 1e-9 ≤ calcFloorMag f * calcHpRoll f →
      Complex.abs (engineModelResponse [] f) = calcMagnitude [] f := by
  refine ⟨fun f => rfl, fun f => rfl, fun f hf => ?_⟩
  have hnn : (0 : ℝ) ≤ calcFloorMag f * calcHpRoll f := le_trans (by norm_num) hf
  unfold engineModelResponse engineModelBase
  rw [calcMagnitude_nil]
  simp only [List.map_nil, List.sum_nil, add_zero]
  rw [← Complex.ofReal_mul, Complex.abs_ofReal]
  show |calcFloorMag f * calcHpRoll f| = _
  rw [abs_of_nonneg hnn, max_eq_left hf]

/-- Witness for C1 amended at frequency 400 Hz, where the floor curve is
well above the 1e-9 flooring. -/
theorem engine_calc_shared_floor_witness :
    1e-9 ≤ calcFloorMag 400 * calcHpRoll 400 ∧
    Complex.abs (engineModelResponse [] 400) = calcMagnitude [] 400 :=
  ⟨by unfold calcFloorMag calcHpRoll; norm_num,
   engine_calc_shared_floor.2.2 400 (by unfold calcFloorMag calcHpRoll; norm_num)⟩

end
